import Mathlib

/-!
Shallow embedding of the GeoSpotlight acquisition and aggregation pipeline
from src/agent.py, together with theorems settling the specification
claims about it.

Modelling conventions:
* Python scalar values appearing in decoded JSON records are modelled by
  the inductive PyVal; Python floats are modelled exactly by rationals
  (the code performs only ratios, sums and comparisons of decimal data).
* List-valued DVF fields (l_codinsee, l_idpar, ...) are typed as Lean
  lists of strings, matching the DVF schema.
* A Python function that can raise is modelled with Except; the error
  string names the offending field or condition.
* A Python dict built key by key is modelled as an association list in
  insertion order; its extensional content is given by lookupA.
-/

/-- Model of a Python scalar value as found in a decoded JSON record. -/
inductive PyVal where
  | pyNone
  | pyBool (b : Bool)
  | pyInt (n : Int)
  | pyFloat (q : ℚ)
  | pyStr (s : String)
deriving DecidableEq

/-- Python truthiness, bool(x), for the scalar values modelled. -/
def pyTruthy : PyVal → Bool
  | .pyNone => false
  | .pyBool b => b
  | .pyInt n => n != 0
  | .pyFloat q => q != 0
  | .pyStr s => s != ""

/-- Model of the Python expression a or b. -/
def pyOr (a b : PyVal) : PyVal := if pyTruthy a then a else b

/-- Value of a nonempty all-digit string, otherwise none. -/
def strDigits? (s : String) : Option Nat :=
  if 0 < s.length && s.toList.all Char.isDigit then
    some (s.toList.foldl (fun n c => n * 10 + (c.toNat - 48)) 0)
  else none

/-- Model of Python int(s) on a string: an optional sign followed by
decimal digits (whitespace stripping and underscore grouping are not
modelled; no claim depends on them). -/
def strToInt? (s : String) : Option Int :=
  if s.startsWith "-" then (strDigits? (s.drop 1)).map (fun n => -(n : Int))
  else if s.startsWith "+" then (strDigits? (s.drop 1)).map (fun n => (n : Int))
  else (strDigits? s).map (fun n => (n : Int))

/-- Model of Python float(s) on a string: an optional sign followed by a
plain decimal numeral (exponent forms are not modelled; no claim depends
on them). -/
def strToFloat? (s : String) : Option ℚ :=
  let core := fun (t : String) =>
    match t.splitOn "." with
    | [a] => (strDigits? a).map (fun n => (n : ℚ))
    | [a, b] =>
      if a.length = 0 && b.length = 0 then none
      else
        match (if a.length = 0 then some 0 else strDigits? a),
              (if b.length = 0 then some 0 else strDigits? b) with
        | some na, some nb => some ((na : ℚ) + (nb : ℚ) / (10 : ℚ) ^ b.length)
        | _, _ => none
    | _ => none
  if s.startsWith "-" then (core (s.drop 1)).map (fun q => -q)
  else if s.startsWith "+" then core (s.drop 1)
  else core s

/-- Model of Python int(x): None raises TypeError, a non-numeric string
raises ValueError (both modelled as none), a float truncates toward
zero. -/
def pyInt? : PyVal → Option Int
  | .pyNone => none
  | .pyBool b => some (if b then 1 else 0)
  | .pyInt n => some n
  | .pyFloat q => some (q.num / (q.den : Int))
  | .pyStr s => strToInt? s

/-- Model of Python float(x): None raises TypeError, a non-numeric string
raises ValueError (both modelled as none). -/
def pyFloat? : PyVal → Option ℚ
  | .pyNone => none
  | .pyBool b => some (if b then 1 else 0)
  | .pyInt n => some (n : ℚ)
  | .pyFloat q => some q
  | .pyStr s => strToFloat? s

/-- Round half to even to an integer, the rounding used by Python round. -/
def roundHalfEven (x : ℚ) : ℤ :=
  if x - ⌊x⌋ < 1/2 then ⌊x⌋
  else if 1/2 < x - ⌊x⌋ then ⌊x⌋ + 1
  else if ⌊x⌋ % 2 = 0 then ⌊x⌋ else ⌊x⌋ + 1

/-- Model of Python round(x, 2). -/
def pyRound2 (x : ℚ) : ℚ := (roundHalfEven (x * 100) : ℚ) / 100

/-- A raw DVF record as consumed by refine_dvf_data: each field is absent
(none) or carries a Python value; a present null is some PyVal.pyNone. -/
structure RawEntry where
  idmutation : Option PyVal
  datemut : Option PyVal
  anneemut : Option PyVal
  coddep : Option PyVal
  l_codinsee : Option (List String)
  valeurfonc : Option PyVal
  sterr : Option PyVal
  sbati : Option PyVal
  codtypbien : Option PyVal
  libtypbien : Option PyVal
  libnatmut : Option PyVal
  vefa : Option PyVal
  nbpar : Option PyVal
  nbparmut : Option PyVal
  l_idpar : Option (List String)
  l_idparmut : Option (List String)
  nbvolmut : Option PyVal
  nblocmut : Option PyVal
  l_idlocmut : Option (List String)
  nbcomm : Option PyVal
deriving DecidableEq

/-- A raw record with every field absent. -/
def emptyRaw : RawEntry :=
  { idmutation := none, datemut := none, anneemut := none, coddep := none,
    l_codinsee := none, valeurfonc := none, sterr := none, sbati := none,
    codtypbien := none, libtypbien := none, libnatmut := none, vefa := none,
    nbpar := none, nbparmut := none, l_idpar := none, l_idparmut := none,
    nbvolmut := none, nblocmut := none, l_idlocmut := none, nbcomm := none }

/-- The refined entry dict built by refine_dvf_data, with the nested
price_per_m2 values inlined as Option fields (None becomes none). -/
structure RefinedEntry where
  mutation_id : PyVal
  mutation_date : PyVal
  mutation_year : Int
  department_code : PyVal
  insee_codes : List String
  nb_communes : Int
  land_value : ℚ
  land_area : ℚ
  built_area : ℚ
  price_per_m2 : Option ℚ
  price_per_m2_land : Option ℚ
  property_type_code : PyVal
  property_type_label : PyVal
  mutation_nature : PyVal
  is_vefa : Bool
  nb_parcels : Int
  nb_parcels_mutated : Int
  parcel_ids : List String
  mutated_parcel_ids : List String
  nb_volumes_mutated : Int
  nb_locals_mutated : Int
  local_ids : List String
  raw_entry : RawEntry
deriving DecidableEq

/-- One iteration of the loop body of refine_dvf_data. Except.error models
an uncaught exception (a coercion failure on one of the parcel, volume,
local or commune count fields, which sit outside the try block in the
source); Except.ok none models the caught-and-skipped case (a coercion
failure on mutation year, land value, land area or built area, inside the
try block); Except.ok (some r) is a successfully refined record. -/
def refineEntry (e : RawEntry) : Except String (Option RefinedEntry) :=
  let mutation_id := (e.idmutation).getD (.pyStr "")
  let mutation_date := (e.datemut).getD .pyNone
  match pyInt? ((e.anneemut).getD (.pyInt 0)) with
  | none => .ok none
  | some mutation_year =>
  let department_code := (e.coddep).getD .pyNone
  let insee_codes := (e.l_codinsee).getD []
  match pyFloat? (pyOr ((e.valeurfonc).getD .pyNone) (.pyFloat 0)) with
  | none => .ok none
  | some land_value =>
  match pyFloat? (pyOr ((e.sterr).getD .pyNone) (.pyFloat 0)) with
  | none => .ok none
  | some land_area =>
  match pyFloat? (pyOr ((e.sbati).getD .pyNone) (.pyFloat 0)) with
  | none => .ok none
  | some built_area =>
  let property_type_code := (e.codtypbien).getD .pyNone
  let property_type_label := (e.libtypbien).getD .pyNone
  let mutation_nature := (e.libnatmut).getD .pyNone
  let is_vefa := pyTruthy ((e.vefa).getD (.pyBool false))
  match pyInt? ((e.nbpar).getD (.pyInt 0)) with
  | none => .error "nbpar"
  | some nb_parcels =>
  match pyInt? ((e.nbparmut).getD (.pyInt 0)) with
  | none => .error "nbparmut"
  | some nb_parcels_mutated =>
  let parcel_ids := (e.l_idpar).getD []
  let mutated_parcel_ids := (e.l_idparmut).getD []
  match pyInt? ((e.nbvolmut).getD (.pyInt 0)) with
  | none => .error "nbvolmut"
  | some nb_volumes_mutated =>
  match pyInt? ((e.nblocmut).getD (.pyInt 0)) with
  | none => .error "nblocmut"
  | some nb_locals_mutated =>
  let local_ids := (e.l_idlocmut).getD []
  match pyInt? ((e.nbcomm).getD (.pyInt 0)) with
  | none => .error "nbcomm"
  | some nb_communes =>
  let price_per_m2 : Option ℚ :=
    if 0 < built_area ∧ 0 < land_value then some (pyRound2 (land_value / built_area)) else none
  let price_per_m2_land : Option ℚ :=
    if 0 < land_area ∧ 0 < land_value then some (pyRound2 (land_value / land_area)) else none
  .ok (some { mutation_id, mutation_date, mutation_year, department_code,
              insee_codes, nb_communes, land_value, land_area, built_area,
              price_per_m2, price_per_m2_land, property_type_code,
              property_type_label, mutation_nature, is_vefa, nb_parcels,
              nb_parcels_mutated, parcel_ids, mutated_parcel_ids,
              nb_volumes_mutated, nb_locals_mutated, local_ids,
              raw_entry := e })

/-- The loop of refine_dvf_data over the raw entries: an uncaught
exception in any iteration aborts the whole call and discards everything
refined so far. -/
def refineLoop : List RawEntry → Except String (List RefinedEntry)
  | [] => .ok []
  | e :: rest =>
    match refineEntry e with
    | .error msg => .error msg
    | .ok none => refineLoop rest
    | .ok (some r) =>
      match refineLoop rest with
      | .error msg => .error msg
      | .ok rs => .ok (r :: rs)

/-- Model of refine_dvf_data. The early return on an empty input list
coincides with the loop on the empty list. -/
def refine_dvf_data (dvf_entries : List RawEntry) : Except String (List RefinedEntry) :=
  refineLoop dvf_entries

/-- The outcome of one loop iteration when no uncaught exception occurs:
none when the record is skipped, some when it is refined. -/
def refineOne (e : RawEntry) : Option RefinedEntry :=
  match refineEntry e with
  | .ok o => o
  | .error _ => none

/-- The four coercions inside the try block of refine_dvf_data all
succeed on this record. -/
def guardedOk (e : RawEntry) : Bool :=
  (pyInt? ((e.anneemut).getD (.pyInt 0))).isSome
  && (pyFloat? (pyOr ((e.valeurfonc).getD .pyNone) (.pyFloat 0))).isSome
  && (pyFloat? (pyOr ((e.sterr).getD .pyNone) (.pyFloat 0))).isSome
  && (pyFloat? (pyOr ((e.sbati).getD .pyNone) (.pyFloat 0))).isSome

/-- The five count coercions outside the try block of refine_dvf_data all
succeed on this record. -/
def countsOk (e : RawEntry) : Bool :=
  (pyInt? ((e.nbpar).getD (.pyInt 0))).isSome
  && (pyInt? ((e.nbparmut).getD (.pyInt 0))).isSome
  && (pyInt? ((e.nbvolmut).getD (.pyInt 0))).isSome
  && (pyInt? ((e.nblocmut).getD (.pyInt 0))).isSome
  && (pyInt? ((e.nbcomm).getD (.pyInt 0))).isSome

/-- Outcome of one HTTP request to the DVF API as seen by the fetch loop
of fetch_all_pages_dvf_api: a decoded page with its optional next link, an
HTTP status error raised by raise_for_status, or a network-level request
failure. -/
inductive FetchOutcome where
  | success (results : List RawEntry) (next : Option String)
  | httpError (status : Nat)
  | requestError
deriving DecidableEq

/-- Result of fetch_all_pages_dvf_api. The delays list records the sleep
durations performed, in seconds, in order. apiError models a raised
APIError, validationError a raised ValidationError; outOfResponses is a
model artifact for an exhausted outcome list. -/
inductive FetchResult where
  | ok (results : List RawEntry) (delays : List Nat)
  | apiError (delays : List Nat)
  | validationError
  | outOfResponses
deriving DecidableEq

/-- The module constant MAX_RETRIES = 3. -/
def MAX_RETRIES : Nat := 3

/-- The nested page/retry loop of fetch_all_pages_dvf_api, driven by the
list of outcomes of the successive HTTP requests. Each new page resets
the retry budget to MAX_RETRIES; a transient failure decrements it and,
if budget remains, sleeps 2 ^ (MAX_RETRIES - retries) seconds before the
next attempt, else raises APIError; HTTP 403 raises APIError at once. -/
def fetchLoop : List FetchOutcome → List RawEntry → Nat → List Nat → FetchResult
  | [], _, _, _ => .outOfResponses
  | o :: rest, results, retries, delays =>
    match o with
    | .success page next =>
      match next with
      | none => .ok (results ++ page) delays
      | some _ => fetchLoop rest (results ++ page) MAX_RETRIES delays
    | .httpError status =>
      if status = 403 then .apiError delays
      else
        if 0 < retries - 1 then
          fetchLoop rest results (retries - 1) (delays ++ [2 ^ (MAX_RETRIES - (retries - 1))])
        else .apiError delays
    | .requestError =>
      if 0 < retries - 1 then
        fetchLoop rest results (retries - 1) (delays ++ [2 ^ (MAX_RETRIES - (retries - 1))])
      else .apiError delays

/-- Model of fetch_all_pages_dvf_api: the empty-argument guard raises
ValidationError, then the loop starts with an empty accumulator and a
fresh retry budget. -/
def fetch_all_pages_dvf_api (bbox min_year : String) (responses : List FetchOutcome) : FetchResult :=
  if bbox = "" ∨ min_year = "" then .validationError
  else fetchLoop responses [] MAX_RETRIES []

/-- A transient failure in the sense of the retry policy: a network-level
request error, or an HTTP error whose status is not 403. -/
def transient : FetchOutcome → Bool
  | .success _ _ => false
  | .httpError s => s != 403
  | .requestError => true

/-- Model of Python sorted on rationals: a stable ascending sort. -/
def pySorted (l : List ℚ) : List ℚ := l.insertionSort (fun a b => a ≤ b)

/-- Model of Python min on a list; the code only evaluates it on nonempty
lists, so the 0 returned on the empty list is never observed. -/
def pyMin {α : Type} [LinearOrder α] [Zero α] : List α → α
  | [] => 0
  | x :: xs => xs.foldl min x

/-- Model of Python max on a list; the code only evaluates it on nonempty
lists, so the 0 returned on the empty list is never observed. -/
def pyMax {α : Type} [LinearOrder α] [Zero α] : List α → α
  | [] => 0
  | x :: xs => xs.foldl max x

/-- Model of the expression sorted(xs)[len(xs)//2] if xs else 0. -/
def medianOf (xs : List ℚ) : ℚ := (pySorted xs).getD (xs.length / 2) 0

/-- Sum of squared deviations from c, the radicand numerator of the
std_dev expression. -/
def sqDevSum (c : ℚ) (xs : List ℚ) : ℚ := (xs.map (fun p => (p - c) ^ 2)).sum

/-- The filter selecting records with a usable derived price: price_per_m2
is not None and is strictly positive. -/
def validPrice (e : RefinedEntry) : Bool :=
  match e.price_per_m2 with
  | some p => decide (0 < p)
  | none => false

/-- The filter selecting records with a usable derived land price. -/
def validLandPrice (e : RefinedEntry) : Bool :=
  match e.price_per_m2_land with
  | some p => decide (0 < p)
  | none => false

/-- valid_price_data in calculate_comprehensive_statistics. -/
def validPriceData (l : List RefinedEntry) : List RefinedEntry := l.filter validPrice

/-- valid_land_price_data in calculate_comprehensive_statistics. -/
def validLandPriceData (l : List RefinedEntry) : List RefinedEntry := l.filter validLandPrice

/-- One step of first-occurrence key collection, mirroring the insertion
order of the keys of a Python dict filled inside a loop. -/
def insStep {K : Type} [DecidableEq K] (acc : List K) (k : K) : List K :=
  if k ∈ acc then acc else acc ++ [k]

/-- The key list, in first-occurrence order, of a Python dict filled by
looping over l. -/
def insList {K : Type} [DecidableEq K] (l : List K) : List K := l.foldl insStep []

/-- First-match lookup in an association list: the extensional content of
the corresponding Python dict. -/
def lookupA {K V : Type} [DecidableEq K] : List (K × V) → K → Option V
  | [], _ => none
  | p :: rest, k => if p.1 = k then some p.2 else lookupA rest k

/-- The price_per_m2 block of financial_stats. -/
structure DistStats where
  mean : ℚ
  median : ℚ
  min : ℚ
  max : ℚ
  std_dev : ℝ

/-- The land_value and built_area blocks of financial_stats. -/
structure ValueStats where
  mean : ℚ
  median : ℚ
  min : ℚ
  max : ℚ
  total : ℚ
deriving DecidableEq

/-- The financial_stats section. -/
structure FinancialStats where
  price_per_m2 : DistStats
  land_value : ValueStats
  built_area : ValueStats

/-- One value of the by_property_type dict, with the nested price_per_m2
subdict inlined as the price_ fields. -/
structure TypeStats where
  count : Nat
  valid_price_count : Nat
  price_mean : ℚ
  price_median : ℚ
  price_min : ℚ
  price_max : ℚ
  avg_built_area : ℚ
  avg_land_value : ℚ
deriving DecidableEq

/-- One value of the by_mutation_nature dict and of the vefa_vs_classic
partitions. -/
structure NatureStats where
  count : Nat
  valid_price_count : Nat
  avg_price_per_m2 : ℚ
  avg_land_value : ℚ
deriving DecidableEq

/-- The geographic_stats section: the two count dicts in key insertion
order, and the two distinct-key counts. -/
structure GeoStats where
  departments : List (PyVal × Nat)
  communes : List (String × Nat)
  nb_unique_departments : Nat
  nb_unique_communes : Nat
deriving DecidableEq

/-- The year_range section. -/
structure YearRange where
  min : Int
  max : Int
deriving DecidableEq

/-- The whole stats dict built for a nonempty input. financial_stats is
none when it is left as the empty dict; vefa and classic are the two
optional keys of vefa_vs_classic. -/
structure Stats where
  total_transactions : Nat
  valid_price_transactions : Nat
  valid_land_price_transactions : Nat
  year_range : YearRange
  financial_stats : Option FinancialStats
  by_property_type : List (PyVal × TypeStats)
  by_mutation_nature : List (PyVal × NatureStats)
  vefa : Option NatureStats
  classic : Option NatureStats
  geographic_stats : GeoStats

/-- The statistics block computed from a list of price values, as in the
financial_stats price_per_m2 entry; std_dev is the population standard
deviation guarded by len(prices) > 1. -/
noncomputable def mkDistStats (prices : List ℚ) : DistStats :=
  { mean := prices.sum / (prices.length : ℚ),
    median := medianOf prices,
    min := pyMin prices,
    max := pyMax prices,
    std_dev :=
      if 1 < prices.length then
        Real.sqrt (((sqDevSum (prices.sum / (prices.length : ℚ)) prices) / (prices.length : ℚ) : ℚ))
      else 0 }

/-- The statistics block computed from a list of values, as in the
land_value and built_area entries of financial_stats. -/
def mkValueStats (vals : List ℚ) : ValueStats :=
  { mean := vals.sum / (vals.length : ℚ),
    median := medianOf vals,
    min := pyMin vals,
    max := pyMax vals,
    total := vals.sum }

/-- The financial_stats section computed over valid_price_data. -/
noncomputable def financialStatsOf (valid : List RefinedEntry) : FinancialStats :=
  { price_per_m2 := mkDistStats (valid.map (fun e => e.price_per_m2.getD 0)),
    land_value := mkValueStats (valid.map (fun e => e.land_value)),
    built_area := mkValueStats (valid.map (fun e => e.built_area)) }

/-- The by_property_type dict value for one group with at least one
valid-price record. -/
def mkTypeStats (entries valid : List RefinedEntry) : TypeStats :=
  { count := entries.length,
    valid_price_count := valid.length,
    price_mean := (valid.map (fun e => e.price_per_m2.getD 0)).sum / ((valid.map (fun e => e.price_per_m2.getD 0)).length : ℚ),
    price_median := medianOf (valid.map (fun e => e.price_per_m2.getD 0)),
    price_min := pyMin (valid.map (fun e => e.price_per_m2.getD 0)),
    price_max := pyMax (valid.map (fun e => e.price_per_m2.getD 0)),
    avg_built_area := (valid.map (fun e => e.built_area)).sum / ((valid.length : ℚ)),
    avg_land_value := (valid.map (fun e => e.land_value)).sum / ((valid.length : ℚ)) }

/-- The by_mutation_nature dict value for one group, also used for the
vefa_vs_classic partitions which share the same shape. -/
def mkNatureStats (entries valid : List RefinedEntry) : NatureStats :=
  { count := entries.length,
    valid_price_count := valid.length,
    avg_price_per_m2 := (valid.map (fun e => e.price_per_m2.getD 0)).sum / ((valid.map (fun e => e.price_per_m2.getD 0)).length : ℚ),
    avg_land_value := (valid.map (fun e => e.land_value)).sum / ((valid.length : ℚ)) }

/-- Shared shape of the two grouped-statistics loops: group the entries by
key in first-occurrence order, then keep the groups that have at least one
valid-price record; the group list of a key is exactly the sublist of
entries carrying that key, in input order. -/
def groupedStats {V : Type} (key : RefinedEntry → PyVal)
    (mk : List RefinedEntry → List RefinedEntry → V)
    (l : List RefinedEntry) : List (PyVal × V) :=
  (insList (l.map key)).filterMap (fun k =>
    let entries := l.filter (fun e => key e = k)
    let valid := entries.filter validPrice
    if valid.isEmpty then none else some (k, mk entries valid))

/-- The by_property_type section. -/
def by_property_type_of (l : List RefinedEntry) : List (PyVal × TypeStats) :=
  groupedStats (fun e => e.property_type_label) mkTypeStats l

/-- The by_mutation_nature section. -/
def by_mutation_nature_of (l : List RefinedEntry) : List (PyVal × NatureStats) :=
  groupedStats (fun e => e.mutation_nature) mkNatureStats l

/-- The vefa key of vefa_vs_classic: present only when the VEFA partition
is nonempty and has at least one valid-price record. -/
def vefaStatsOf (l : List RefinedEntry) : Option NatureStats :=
  let vefa_entries := l.filter (fun e => e.is_vefa)
  if vefa_entries.isEmpty then none
  else
    let valid := vefa_entries.filter validPrice
    if valid.isEmpty then none else some (mkNatureStats vefa_entries valid)

/-- The classic key of vefa_vs_classic. -/
def classicStatsOf (l : List RefinedEntry) : Option NatureStats :=
  let classic_entries := l.filter (fun e => !e.is_vefa)
  if classic_entries.isEmpty then none
  else
    let valid := classic_entries.filter validPrice
    if valid.isEmpty then none else some (mkNatureStats classic_entries valid)

/-- The geographic_stats section. A record appends itself to the bucket of
its department once, and to the bucket of each of its INSEE codes once per
occurrence, so the per-key count equals the occurrence count. -/
def geoStatsOf (l : List RefinedEntry) : GeoStats :=
  { departments := (insList (l.map (fun e => e.department_code))).map
      (fun k => (k, (l.filter (fun e => e.department_code = k)).length)),
    communes := (insList (l.flatMap (fun e => e.insee_codes))).map
      (fun c => (c, (l.flatMap (fun e => e.insee_codes)).count c)),
    nb_unique_departments := (insList (l.map (fun e => e.department_code))).length,
    nb_unique_communes := (insList (l.flatMap (fun e => e.insee_codes))).length }

/-- The stats dict built by calculate_comprehensive_statistics for a
nonempty input. The year_range guards on nonemptiness in the source are
dead on this path, so min and max are taken directly. -/
noncomputable def statsOf (l : List RefinedEntry) : Stats :=
  { total_transactions := l.length,
    valid_price_transactions := (validPriceData l).length,
    valid_land_price_transactions := (validLandPriceData l).length,
    year_range := { min := pyMin (l.map (fun e => e.mutation_year)),
                    max := pyMax (l.map (fun e => e.mutation_year)) },
    financial_stats :=
      if (validPriceData l).isEmpty then none
      else some (financialStatsOf (validPriceData l)),
    by_property_type := by_property_type_of l,
    by_mutation_nature := by_mutation_nature_of l,
    vefa := vefaStatsOf l,
    classic := classicStatsOf l,
    geographic_stats := geoStatsOf l }

/-- Model of calculate_comprehensive_statistics: the empty input returns
the empty dict, modelled as none; a nonempty input returns the populated
stats dict. -/
noncomputable def calculate_comprehensive_statistics : List RefinedEntry → Option Stats
  | [] => none
  | e :: rest => some (statsOf (e :: rest))

/-- A raw record whose unguarded parcel-count field holds a null: int(None)
raises a TypeError outside the try block of refine_dvf_data. -/
def rawBadCount : RawEntry := { emptyRaw with nbpar := some .pyNone }

/-- A raw record for the price-derivation example of the spec: built area
100 and land value 250000. -/
def rawPrice100 : RawEntry :=
  { emptyRaw with sbati := some (.pyFloat 100), valeurfonc := some (.pyFloat 250000) }

/-- The record refined from rawPrice100. -/
def refPrice100 : RefinedEntry :=
  { mutation_id := .pyStr "", mutation_date := .pyNone, mutation_year := 0,
    department_code := .pyNone, insee_codes := [], nb_communes := 0,
    land_value := 250000, land_area := 0, built_area := 100,
    price_per_m2 := some 2500, price_per_m2_land := none,
    property_type_code := .pyNone, property_type_label := .pyNone,
    mutation_nature := .pyNone, is_vefa := false,
    nb_parcels := 0, nb_parcels_mutated := 0, parcel_ids := [], mutated_parcel_ids := [],
    nb_volumes_mutated := 0, nb_locals_mutated := 0, local_ids := [], raw_entry := rawPrice100 }

/-- A raw record whose exact price quotient 100 / 3 does not survive
rounding to two decimals. -/
def rawPriceThird : RawEntry :=
  { emptyRaw with sbati := some (.pyFloat 3), valeurfonc := some (.pyFloat 100) }

/-- The record refined from rawPriceThird: the derived price is the
rounded 33.33, not the exact quotient 100 / 3. -/
def refPriceThird : RefinedEntry :=
  { mutation_id := .pyStr "", mutation_date := .pyNone, mutation_year := 0,
    department_code := .pyNone, insee_codes := [], nb_communes := 0,
    land_value := 100, land_area := 0, built_area := 3,
    price_per_m2 := some (3333 / 100), price_per_m2_land := none,
    property_type_code := .pyNone, property_type_label := .pyNone,
    mutation_nature := .pyNone, is_vefa := false,
    nb_parcels := 0, nb_parcels_mutated := 0, parcel_ids := [], mutated_parcel_ids := [],
    nb_volumes_mutated := 0, nb_locals_mutated := 0, local_ids := [], raw_entry := rawPriceThird }

/-- A raw record exercising both derived prices with nontrivial rounding:
100 / 3 rounds down to 33.33 and 100 / 7 rounds up to 14.29. -/
def rawPriceSeventh : RawEntry :=
  { emptyRaw with sbati := some (.pyFloat 3), valeurfonc := some (.pyFloat 100), sterr := some (.pyFloat 7) }

/-- The record refined from rawPriceSeventh. -/
def refPriceSeventh : RefinedEntry :=
  { mutation_id := .pyStr "", mutation_date := .pyNone, mutation_year := 0,
    department_code := .pyNone, insee_codes := [], nb_communes := 0,
    land_value := 100, land_area := 7, built_area := 3,
    price_per_m2 := some (3333 / 100), price_per_m2_land := some (1429 / 100),
    property_type_code := .pyNone, property_type_label := .pyNone,
    mutation_nature := .pyNone, is_vefa := false,
    nb_parcels := 0, nb_parcels_mutated := 0, parcel_ids := [], mutated_parcel_ids := [],
    nb_volumes_mutated := 0, nb_locals_mutated := 0, local_ids := [], raw_entry := rawPriceSeventh }

/-- A normalized record with the given derived price, property label and
INSEE codes, and neutral remaining fields, used as concrete input to the
statistics engine in the examples. -/
def mkEntry (price : Option ℚ) (label : PyVal) (insee : List String) : RefinedEntry :=
  { mutation_id := .pyStr "", mutation_date := .pyNone, mutation_year := 2022,
    department_code := .pyNone, insee_codes := insee, nb_communes := 0,
    land_value := 0, land_area := 0, built_area := 0,
    price_per_m2 := price, price_per_m2_land := none,
    property_type_code := .pyNone, property_type_label := label,
    mutation_nature := .pyNone, is_vefa := false,
    nb_parcels := 0, nb_parcels_mutated := 0, parcel_ids := [], mutated_parcel_ids := [],
    nb_volumes_mutated := 0, nb_locals_mutated := 0, local_ids := [], raw_entry := emptyRaw }

/-- A raw record whose guarded mutation-year field holds a null: int(None)
raises inside the try block and the record is skipped. -/
def rawBadYear : RawEntry := { emptyRaw with anneemut := some .pyNone }

deriving instance DecidableEq for Except

/-- Input for the median example: four records with derived prices 300,
100, 400, 200. -/
def c3Entries : List RefinedEntry :=
  [mkEntry (some 300) .pyNone [], mkEntry (some 100) .pyNone [],
   mkEntry (some 400) .pyNone [], mkEntry (some 200) .pyNone []]

/-- Input for the totals example: one valid-price record, one record
without a derived price, one record with a non-positive derived price. -/
def c10Entries : List RefinedEntry :=
  [mkEntry (some 100) .pyNone [], mkEntry none .pyNone [], mkEntry (some 0) .pyNone []]

/-- Input refuting the commune-sum bound: a single record with no INSEE
code. -/
def c8NoInsee : List RefinedEntry := [mkEntry none .pyNone []]

/-- Input for the commune fan-out example: one record carrying two INSEE
codes. -/
def c8Two : List RefinedEntry := [mkEntry none .pyNone ["75101", "75102"]]

/-- Two distinct records for the order-independence example. -/
def c7A : RefinedEntry := mkEntry (some 100) (.pyStr "Appartement") ["75101"]

/-- Second record for the order-independence example. -/
def c7B : RefinedEntry := mkEntry (some 300) (.pyStr "Maison") ["75102"]

theorem roundHalfEven_eq_low (x : ℚ) (k : ℤ) (h1 : (k : ℚ) ≤ x) (h2 : x - k < 1/2) :
    roundHalfEven x = k := by
  have hf : ⌊x⌋ = k := by
    rw [Int.floor_eq_iff]
    refine ⟨h1, ?_⟩
    have : x < (k : ℚ) + 1/2 := by linarith
    linarith
  unfold roundHalfEven
  rw [hf]
  rw [if_pos h2]

theorem roundHalfEven_eq_high (x : ℚ) (k : ℤ) (h1 : 1/2 < x - k) (h2 : x < (k : ℚ) + 1) :
    roundHalfEven x = k + 1 := by
  have hf : ⌊x⌋ = k := by
    rw [Int.floor_eq_iff]
    constructor
    · have : (k : ℚ) + 1/2 < x := by linarith
      linarith
    · exact h2
  unfold roundHalfEven
  rw [hf]
  rw [if_neg (by linarith), if_pos h1]

theorem roundHalfEven_intCast (k : ℤ) : roundHalfEven (k : ℚ) = k := by
  apply roundHalfEven_eq_low
  · exact le_refl _
  · simp

theorem pyRound2_of_int (x : ℚ) (k : ℤ) (h : x * 100 = (k : ℚ)) : pyRound2 x = (k : ℚ) / 100 := by
  unfold pyRound2
  rw [h, roundHalfEven_intCast]

theorem refineEntry_skip (e : RawEntry) (h : guardedOk e = false) : refineEntry e = .ok none := by
  simp only [refineEntry]
  cases h1 : pyInt? ((e.anneemut).getD (.pyInt 0)) with
  | none => rfl
  | some y =>
  cases h2 : pyFloat? (pyOr ((e.valeurfonc).getD .pyNone) (.pyFloat 0)) with
  | none => rfl
  | some lv =>
  cases h3 : pyFloat? (pyOr ((e.sterr).getD .pyNone) (.pyFloat 0)) with
  | none => rfl
  | some la =>
  cases h4 : pyFloat? (pyOr ((e.sbati).getD .pyNone) (.pyFloat 0)) with
  | none => rfl
  | some ba =>
  exfalso
  rw [guardedOk, h1, h2, h3, h4] at h
  simp at h

theorem refineEntry_some (e : RawEntry) (hg : guardedOk e = true) (hc : countsOk e = true) :
    ∃ r, refineEntry e = .ok (some r) := by
  simp only [guardedOk, Bool.and_eq_true, Option.isSome_iff_exists] at hg
  obtain ⟨⟨⟨⟨y, h1⟩, ⟨lv, h2⟩⟩, ⟨la, h3⟩⟩, ⟨ba, h4⟩⟩ := hg
  simp only [countsOk, Bool.and_eq_true, Option.isSome_iff_exists] at hc
  obtain ⟨⟨⟨⟨⟨n1, h5⟩, ⟨n2, h6⟩⟩, ⟨n3, h7⟩⟩, ⟨n4, h8⟩⟩, ⟨n5, h9⟩⟩ := hc
  simp only [refineEntry]
  rw [h1, h2, h3, h4, h5, h6, h7, h8, h9]
  exact ⟨_, rfl⟩

theorem refineEntry_not_error (e : RawEntry) (h : guardedOk e = true → countsOk e = true)
    (msg : String) : refineEntry e ≠ .error msg := by
  by_cases hg : guardedOk e = true
  · obtain ⟨r, hr⟩ := refineEntry_some e hg (h hg)
    rw [hr]
    simp
  · rw [refineEntry_skip e (by simpa using hg)]
    simp

theorem refineOne_eq_of (e : RawEntry) (o : Option RefinedEntry)
    (h : refineEntry e = .ok o) : refineOne e = o := by
  unfold refineOne
  rw [h]

theorem refineLoop_eq_filterMap :
    ∀ (l : List RawEntry), (∀ e ∈ l, guardedOk e = true → countsOk e = true) →
      refineLoop l = .ok (l.filterMap refineOne) := by
  intro l
  induction l with
  | nil => intro _; rfl
  | cons e rest ih =>
    intro h
    have hrest := fun x hx => h x (List.mem_cons_of_mem e hx)
    by_cases hg : guardedOk e = true
    · obtain ⟨r, hr⟩ := refineEntry_some e hg (h e (List.mem_cons_self e rest) hg)
      simp only [refineLoop, hr, ih hrest, List.filterMap_cons, refineOne_eq_of e _ hr]
    · have hr := refineEntry_skip e (by simpa using hg)
      simp only [refineLoop, hr, ih hrest, List.filterMap_cons, refineOne_eq_of e _ hr]

theorem refineLoop_ok_inv :
    ∀ {l : List RawEntry} {out : List RefinedEntry}, refineLoop l = .ok out →
      out = l.filterMap refineOne := by
  intro l
  induction l with
  | nil =>
    intro out h
    simp only [refineLoop, Except.ok.injEq] at h
    simp [h.symm]
  | cons e rest ih =>
    intro out h
    simp only [refineLoop] at h
    cases hre : refineEntry e with
    | error m => rw [hre] at h; cases h
    | ok o =>
      rw [hre] at h
      cases o with
      | none =>
        rw [List.filterMap_cons, refineOne_eq_of e _ hre]
        exact ih h
      | some r =>
        cases hrl : refineLoop rest with
        | error m => rw [hrl] at h; cases h
        | ok rs =>
          rw [hrl] at h
          simp only [Except.ok.injEq] at h
          rw [List.filterMap_cons, refineOne_eq_of e _ hre, h.symm, ih hrl]

theorem mem_refine {raws : List RawEntry} {out : List RefinedEntry} {r : RefinedEntry}
    (h : refine_dvf_data raws = .ok out) (hr : r ∈ out) :
    ∃ e ∈ raws, refineEntry e = .ok (some r) := by
  have hout : out = raws.filterMap refineOne := refineLoop_ok_inv h
  obtain ⟨e, he, hfe⟩ := List.mem_filterMap.mp (hout ▸ hr)
  refine ⟨e, he, ?_⟩
  unfold refineOne at hfe
  cases h2 : refineEntry e with
  | error m => rw [h2] at hfe; cases hfe
  | ok o =>
    rw [h2] at hfe
    exact congrArg Except.ok hfe

theorem refineEntry_fields {e : RawEntry} {r : RefinedEntry} (h : refineEntry e = .ok (some r)) :
    r.price_per_m2 =
      (if 0 < r.built_area ∧ 0 < r.land_value then some (pyRound2 (r.land_value / r.built_area)) else none) ∧
    r.price_per_m2_land =
      (if 0 < r.land_area ∧ 0 < r.land_value then some (pyRound2 (r.land_value / r.land_area)) else none) := by
  simp only [refineEntry] at h
  cases h1 : pyInt? ((e.anneemut).getD (.pyInt 0)) with
  | none => rw [h1] at h; simp at h
  | some y =>
  rw [h1] at h
  cases h2 : pyFloat? (pyOr ((e.valeurfonc).getD .pyNone) (.pyFloat 0)) with
  | none => rw [h2] at h; simp at h
  | some lv =>
  rw [h2] at h
  cases h3 : pyFloat? (pyOr ((e.sterr).getD .pyNone) (.pyFloat 0)) with
  | none => rw [h3] at h; simp at h
  | some la =>
  rw [h3] at h
  cases h4 : pyFloat? (pyOr ((e.sbati).getD .pyNone) (.pyFloat 0)) with
  | none => rw [h4] at h; simp at h
  | some ba =>
  rw [h4] at h
  cases h5 : pyInt? ((e.nbpar).getD (.pyInt 0)) with
  | none => rw [h5] at h; cases h
  | some n1 =>
  rw [h5] at h
  cases h6 : pyInt? ((e.nbparmut).getD (.pyInt 0)) with
  | none => rw [h6] at h; cases h
  | some n2 =>
  rw [h6] at h
  cases h7 : pyInt? ((e.nbvolmut).getD (.pyInt 0)) with
  | none => rw [h7] at h; cases h
  | some n3 =>
  rw [h7] at h
  cases h8 : pyInt? ((e.nblocmut).getD (.pyInt 0)) with
  | none => rw [h8] at h; cases h
  | some n4 =>
  rw [h8] at h
  cases h9 : pyInt? ((e.nbcomm).getD (.pyInt 0)) with
  | none => rw [h9] at h; cases h
  | some n5 =>
  rw [h9] at h
  simp only [Except.ok.injEq, Option.some.injEq] at h
  subst h
  exact ⟨rfl, rfl⟩

theorem foldl_min_le_init {α : Type} [LinearOrder α] :
    ∀ (xs : List α) (b : α), xs.foldl min b ≤ b := by
  intro xs
  induction xs with
  | nil => intro b; exact le_refl b
  | cons x xs ih =>
    intro b
    exact le_trans (ih (min b x)) (min_le_left b x)

theorem foldl_min_le_mem {α : Type} [LinearOrder α] :
    ∀ (xs : List α) (y : α), y ∈ xs → ∀ b, xs.foldl min b ≤ y := by
  intro xs
  induction xs with
  | nil => intro y hy; cases hy
  | cons x xs ih =>
    intro y hy b
    rcases List.mem_cons.mp hy with rfl | hy2
    · exact le_trans (foldl_min_le_init xs (min b y)) (min_le_right b y)
    · exact ih y hy2 (min b x)

theorem foldl_min_mem {α : Type} [LinearOrder α] :
    ∀ (xs : List α) (b : α), xs.foldl min b = b ∨ xs.foldl min b ∈ xs := by
  intro xs
  induction xs with
  | nil => intro b; exact Or.inl rfl
  | cons x xs ih =>
    intro b
    rcases ih (min b x) with h | h
    · rw [List.foldl_cons, h]
      rcases le_total b x with hbx | hxb
      · exact Or.inl (min_eq_left hbx)
      · right
        rw [min_eq_right hxb]
        exact List.mem_cons_self x xs
    · right
      exact List.mem_cons_of_mem x h

theorem pyMin_mem {α : Type} [LinearOrder α] [Zero α] {l : List α} (h : l ≠ []) :
    pyMin l ∈ l := by
  cases l with
  | nil => exact absurd rfl h
  | cons x xs =>
    show xs.foldl min x ∈ x :: xs
    rcases foldl_min_mem xs x with h2 | h2
    · rw [h2]; exact List.mem_cons_self x xs
    · exact List.mem_cons_of_mem x h2

theorem pyMin_le {α : Type} [LinearOrder α] [Zero α] {l : List α} {y : α} (hy : y ∈ l) :
    pyMin l ≤ y := by
  cases l with
  | nil => cases hy
  | cons x xs =>
    show xs.foldl min x ≤ y
    rcases List.mem_cons.mp hy with rfl | hy2
    · exact foldl_min_le_init xs y
    · exact foldl_min_le_mem xs y hy2 x

theorem pyMin_perm {α : Type} [LinearOrder α] [Zero α] {l₁ l₂ : List α} (h : l₁.Perm l₂) :
    pyMin l₁ = pyMin l₂ := by
  cases l₁ with
  | nil => rw [h.nil_eq.symm]
  | cons x xs =>
    have h1 : l₂ ≠ [] := by
      intro he
      rw [he] at h
      cases h.eq_nil
    exact le_antisymm
      (pyMin_le (h.mem_iff.mpr (pyMin_mem h1)))
      (pyMin_le (h.mem_iff.mp (pyMin_mem (by simp))))

theorem foldl_max_le_init {α : Type} [LinearOrder α] :
    ∀ (xs : List α) (b : α), b ≤ xs.foldl max b := by
  intro xs
  induction xs with
  | nil => intro b; exact le_refl b
  | cons x xs ih =>
    intro b
    exact le_trans (le_max_left b x) (ih (max b x))

theorem foldl_max_le_mem {α : Type} [LinearOrder α] :
    ∀ (xs : List α) (y : α), y ∈ xs → ∀ b, y ≤ xs.foldl max b := by
  intro xs
  induction xs with
  | nil => intro y hy; cases hy
  | cons x xs ih =>
    intro y hy b
    rcases List.mem_cons.mp hy with rfl | hy2
    · exact le_trans (le_max_right b y) (foldl_max_le_init xs (max b y))
    · exact ih y hy2 (max b x)

theorem foldl_max_mem {α : Type} [LinearOrder α] :
    ∀ (xs : List α) (b : α), xs.foldl max b = b ∨ xs.foldl max b ∈ xs := by
  intro xs
  induction xs with
  | nil => intro b; exact Or.inl rfl
  | cons x xs ih =>
    intro b
    rcases ih (max b x) with h | h
    · rw [List.foldl_cons, h]
      rcases le_total x b with hxb | hbx
      · exact Or.inl (max_eq_left hxb)
      · right
        rw [max_eq_right hbx]
        exact List.mem_cons_self x xs
    · right
      exact List.mem_cons_of_mem x h

theorem pyMax_mem {α : Type} [LinearOrder α] [Zero α] {l : List α} (h : l ≠ []) :
    pyMax l ∈ l := by
  cases l with
  | nil => exact absurd rfl h
  | cons x xs =>
    show xs.foldl max x ∈ x :: xs
    rcases foldl_max_mem xs x with h2 | h2
    · rw [h2]; exact List.mem_cons_self x xs
    · exact List.mem_cons_of_mem x h2

theorem pyMax_le {α : Type} [LinearOrder α] [Zero α] {l : List α} {y : α} (hy : y ∈ l) :
    y ≤ pyMax l := by
  cases l with
  | nil => cases hy
  | cons x xs =>
    show y ≤ xs.foldl max x
    rcases List.mem_cons.mp hy with rfl | hy2
    · exact foldl_max_le_init xs y
    · exact foldl_max_le_mem xs y hy2 x

theorem pyMax_perm {α : Type} [LinearOrder α] [Zero α] {l₁ l₂ : List α} (h : l₁.Perm l₂) :
    pyMax l₁ = pyMax l₂ := by
  cases l₁ with
  | nil => rw [h.nil_eq.symm]
  | cons x xs =>
    have h1 : l₂ ≠ [] := by
      intro he
      rw [he] at h
      cases h.eq_nil
    exact le_antisymm
      (pyMax_le (h.mem_iff.mp (pyMax_mem (by simp))))
      (pyMax_le (h.mem_iff.mpr (pyMax_mem h1)))

theorem pySorted_perm (l : List ℚ) : (pySorted l).Perm l :=
  List.perm_insertionSort _ l

theorem pySorted_sorted (l : List ℚ) : List.Sorted (fun a b => a ≤ b) (pySorted l) :=
  List.sorted_insertionSort _ l

theorem pySorted_eq_of_perm {l₁ l₂ : List ℚ} (h : l₁.Perm l₂) : pySorted l₁ = pySorted l₂ :=
  List.eq_of_perm_of_sorted (((pySorted_perm l₁).trans h).trans (pySorted_perm l₂).symm)
    (pySorted_sorted l₁) (pySorted_sorted l₂)

theorem medianOf_perm {l₁ l₂ : List ℚ} (h : l₁.Perm l₂) : medianOf l₁ = medianOf l₂ := by
  unfold medianOf
  rw [pySorted_eq_of_perm h, h.length_eq]

theorem perm_isEmpty_eq {α : Type} {l₁ l₂ : List α} (h : l₁.Perm l₂) :
    l₁.isEmpty = l₂.isEmpty := by
  cases l₁ with
  | nil => rw [h.nil_eq.symm]
  | cons x xs =>
    cases l₂ with
    | nil => cases h.eq_nil
    | cons y ys => rfl

theorem mem_foldl_insStep {K : Type} [DecidableEq K] :
    ∀ (l acc : List K) (x : K), x ∈ l.foldl insStep acc ↔ x ∈ acc ∨ x ∈ l := by
  intro l
  induction l with
  | nil => intro acc x; simp
  | cons k l ih =>
    intro acc x
    rw [List.foldl_cons, ih]
    unfold insStep
    by_cases hk : k ∈ acc
    · rw [if_pos hk]
      constructor
      · rintro (h | h)
        · exact Or.inl h
        · exact Or.inr (List.mem_cons_of_mem k h)
      · rintro (h | h)
        · exact Or.inl h
        · rcases List.mem_cons.mp h with rfl | h2
          · exact Or.inl hk
          · exact Or.inr h2
    · rw [if_neg hk]
      simp only [List.mem_append, List.mem_singleton, List.mem_cons]
      tauto

theorem nodup_foldl_insStep {K : Type} [DecidableEq K] :
    ∀ (l acc : List K), acc.Nodup → (l.foldl insStep acc).Nodup := by
  intro l
  induction l with
  | nil => intro acc h; exact h
  | cons k l ih =>
    intro acc h
    rw [List.foldl_cons]
    apply ih
    unfold insStep
    by_cases hk : k ∈ acc
    · rw [if_pos hk]; exact h
    · rw [if_neg hk]
      rw [List.nodup_append]
      exact ⟨h, List.nodup_singleton k, by simpa using hk⟩

theorem mem_insList {K : Type} [DecidableEq K] {l : List K} {x : K} :
    x ∈ insList l ↔ x ∈ l := by
  unfold insList
  rw [mem_foldl_insStep]
  simp

theorem nodup_insList {K : Type} [DecidableEq K] (l : List K) : (insList l).Nodup :=
  nodup_foldl_insStep l [] List.nodup_nil

theorem insList_perm {K : Type} [DecidableEq K] {l₁ l₂ : List K} (h : l₁.Perm l₂) :
    (insList l₁).Perm (insList l₂) :=
  (List.perm_ext_iff_of_nodup (nodup_insList l₁) (nodup_insList l₂)).mpr
    (fun a => by rw [mem_insList, mem_insList, h.mem_iff])

theorem lookupA_eq_some_iff {K V : Type} [DecidableEq K] :
    ∀ {l : List (K × V)}, (l.map Prod.fst).Nodup → ∀ {k : K} {v : V},
      (lookupA l k = some v ↔ (k, v) ∈ l) := by
  intro l
  induction l with
  | nil => intro _ k v; simp [lookupA]
  | cons p rest ih =>
    intro hnd k v
    obtain ⟨k0, v0⟩ := p
    rw [List.map_cons, List.nodup_cons] at hnd
    unfold lookupA
    by_cases hk : k0 = k
    · subst hk
      rw [if_pos rfl]
      constructor
      · intro h
        rw [Option.some.injEq] at h
        subst h
        exact List.mem_cons_self _ _
      · intro h
        rcases List.mem_cons.mp h with h2 | h2
        · rw [(Prod.mk.injEq _ _ _ _).mp h2 |>.2]
        · exact absurd (List.mem_map_of_mem Prod.fst h2) hnd.1
    · rw [if_neg hk, ih hnd.2]
      constructor
      · exact fun h => List.mem_cons_of_mem _ h
      · intro h
        rcases List.mem_cons.mp h with h2 | h2
        · exact absurd ((Prod.mk.injEq _ _ _ _).mp h2.symm |>.1) hk
        · exact h2

theorem lookupA_eq_none_iff {K V : Type} [DecidableEq K] :
    ∀ {l : List (K × V)} {k : K}, (lookupA l k = none ↔ k ∉ l.map Prod.fst) := by
  intro l
  induction l with
  | nil => intro k; simp [lookupA]
  | cons p rest ih =>
    intro k
    obtain ⟨k0, v0⟩ := p
    unfold lookupA
    by_cases hk : k0 = k
    · subst hk
      rw [if_pos rfl]
      simp
    · rw [if_neg hk, ih]
      simp [Ne.symm hk]

theorem lookupA_perm {K V : Type} [DecidableEq K] {l₁ l₂ : List (K × V)} (h : l₁.Perm l₂)
    (hnd : (l₁.map Prod.fst).Nodup) (k : K) : lookupA l₁ k = lookupA l₂ k := by
  have hnd₂ : (l₂.map Prod.fst).Nodup := ((h.map Prod.fst).nodup_iff).mp hnd
  cases hv : lookupA l₂ k with
  | some v =>
    exact (lookupA_eq_some_iff hnd).mpr (h.mem_iff.mpr ((lookupA_eq_some_iff hnd₂).mp hv))
  | none =>
    rw [lookupA_eq_none_iff]
    intro hmem
    exact (lookupA_eq_none_iff.mp hv) ((h.map Prod.fst).mem_iff.mp hmem)

theorem mapFst_filterMap_sublist {K V : Type} (g : K → Option (K × V))
    (hg : ∀ k p, g k = some p → p.1 = k) :
    ∀ (ks : List K), ((ks.filterMap g).map Prod.fst).Sublist ks := by
  intro ks
  induction ks with
  | nil => simp
  | cons k ks ih =>
    rw [List.filterMap_cons]
    cases hgk : g k with
    | none => exact ih.cons k
    | some p =>
      rw [List.map_cons, hg k p hgk]
      exact ih.cons₂ k

theorem lookupA_map_self {K V : Type} [DecidableEq K] (f : K → V) :
    ∀ (ks : List K) (k : K),
      lookupA (ks.map (fun x => (x, f x))) k = if k ∈ ks then some (f k) else none := by
  intro ks
  induction ks with
  | nil => intro k; simp [lookupA]
  | cons a ks ih =>
    intro k
    rw [List.map_cons]
    unfold lookupA
    by_cases ha : a = k
    · subst ha
      rw [if_pos rfl, if_pos (List.mem_cons_self a ks)]
    · rw [if_neg ha, ih k]
      by_cases hk : k ∈ ks
      · rw [if_pos hk, if_pos (List.mem_cons_of_mem a hk)]
      · rw [if_neg hk, if_neg (by simp [Ne.symm ha, hk])]

theorem sqDevSum_perm {c : ℚ} {l₁ l₂ : List ℚ} (h : l₁.Perm l₂) :
    sqDevSum c l₁ = sqDevSum c l₂ := by
  unfold sqDevSum
  exact (h.map _).sum_eq

theorem mkDistStats_perm {p₁ p₂ : List ℚ} (h : p₁.Perm p₂) : mkDistStats p₁ = mkDistStats p₂ := by
  unfold mkDistStats
  rw [h.sum_eq, h.length_eq, medianOf_perm h, pyMin_perm h, pyMax_perm h, sqDevSum_perm h]

theorem mkValueStats_perm {p₁ p₂ : List ℚ} (h : p₁.Perm p₂) :
    mkValueStats p₁ = mkValueStats p₂ := by
  unfold mkValueStats
  rw [h.sum_eq, h.length_eq, medianOf_perm h, pyMin_perm h, pyMax_perm h]

theorem financialStatsOf_perm {l₁ l₂ : List RefinedEntry} (h : l₁.Perm l₂) :
    financialStatsOf l₁ = financialStatsOf l₂ := by
  unfold financialStatsOf
  rw [mkDistStats_perm (h.map _), mkValueStats_perm (h.map (fun e => e.land_value)),
    mkValueStats_perm (h.map (fun e => e.built_area))]

theorem mkTypeStats_perm {a₁ a₂ b₁ b₂ : List RefinedEntry} (ha : a₁.Perm a₂) (hb : b₁.Perm b₂) :
    mkTypeStats a₁ b₁ = mkTypeStats a₂ b₂ := by
  unfold mkTypeStats
  rw [ha.length_eq, hb.length_eq, (hb.map (fun e => e.price_per_m2.getD 0)).sum_eq,
    (hb.map (fun e => e.price_per_m2.getD 0)).length_eq,
    medianOf_perm (hb.map (fun e => e.price_per_m2.getD 0)),
    pyMin_perm (hb.map (fun e => e.price_per_m2.getD 0)),
    pyMax_perm (hb.map (fun e => e.price_per_m2.getD 0)),
    (hb.map (fun e => e.built_area)).sum_eq, (hb.map (fun e => e.land_value)).sum_eq]

theorem mkNatureStats_perm {a₁ a₂ b₁ b₂ : List RefinedEntry} (ha : a₁.Perm a₂) (hb : b₁.Perm b₂) :
    mkNatureStats a₁ b₁ = mkNatureStats a₂ b₂ := by
  unfold mkNatureStats
  rw [ha.length_eq, hb.length_eq, (hb.map (fun e => e.price_per_m2.getD 0)).sum_eq,
    (hb.map (fun e => e.price_per_m2.getD 0)).length_eq,
    (hb.map (fun e => e.land_value)).sum_eq]

theorem groupedStats_key_nodup {V : Type} (key : RefinedEntry → PyVal)
    (mk : List RefinedEntry → List RefinedEntry → V) (l : List RefinedEntry) :
    ((groupedStats key mk l).map Prod.fst).Nodup := by
  unfold groupedStats
  refine List.Sublist.nodup (mapFst_filterMap_sublist _ ?_ _) (nodup_insList _)
  intro k p hp
  simp only at hp
  by_cases hv : ((l.filter (fun e => key e = k)).filter validPrice).isEmpty
  · rw [if_pos hv] at hp; cases hp
  · rw [if_neg hv, Option.some.injEq] at hp
    rw [hp.symm]

theorem groupedStats_perm {V : Type} (key : RefinedEntry → PyVal)
    (mk : List RefinedEntry → List RefinedEntry → V)
    (hmk : ∀ {a₁ a₂ b₁ b₂ : List RefinedEntry}, a₁.Perm a₂ → b₁.Perm b₂ → mk a₁ b₁ = mk a₂ b₂)
    {l₁ l₂ : List RefinedEntry} (h : l₁.Perm l₂) (k : PyVal) :
    lookupA (groupedStats key mk l₁) k = lookupA (groupedStats key mk l₂) k := by
  have hfun : ∀ j : PyVal,
      (let entries := l₁.filter (fun e => key e = j)
       let valid := entries.filter validPrice
       if valid.isEmpty then none else some (j, mk entries valid)) =
      (let entries := l₂.filter (fun e => key e = j)
       let valid := entries.filter validPrice
       if valid.isEmpty then none else some (j, mk entries valid)) := by
    intro j
    have hent : (l₁.filter (fun e => key e = j)).Perm (l₂.filter (fun e => key e = j)) :=
      h.filter _
    have hval := hent.filter validPrice
    simp only
    rw [perm_isEmpty_eq hval]
    by_cases hv : ((l₂.filter (fun e => key e = j)).filter validPrice).isEmpty
    · rw [if_pos hv, if_pos hv]
    · rw [if_neg hv, if_neg hv, hmk hent hval]
  have hkeys : (insList (l₁.map key)).Perm (insList (l₂.map key)) := insList_perm (h.map key)
  have hperm : (groupedStats key mk l₁).Perm (groupedStats key mk l₂) := by
    unfold groupedStats
    rw [funext hfun]
    exact hkeys.filterMap _
  exact lookupA_perm hperm (groupedStats_key_nodup key mk l₁) k

theorem vefaStatsOf_perm {l₁ l₂ : List RefinedEntry} (h : l₁.Perm l₂) :
    vefaStatsOf l₁ = vefaStatsOf l₂ := by
  unfold vefaStatsOf
  have hent := h.filter (fun e => e.is_vefa)
  have hval := hent.filter validPrice
  simp only
  rw [perm_isEmpty_eq hent, perm_isEmpty_eq hval]
  by_cases h1 : (l₂.filter (fun e => e.is_vefa)).isEmpty
  · rw [if_pos h1, if_pos h1]
  · rw [if_neg h1, if_neg h1]
    by_cases h2 : ((l₂.filter (fun e => e.is_vefa)).filter validPrice).isEmpty
    · rw [if_pos h2, if_pos h2]
    · rw [if_neg h2, if_neg h2, mkNatureStats_perm hent hval]

theorem classicStatsOf_perm {l₁ l₂ : List RefinedEntry} (h : l₁.Perm l₂) :
    classicStatsOf l₁ = classicStatsOf l₂ := by
  unfold classicStatsOf
  have hent := h.filter (fun e => !e.is_vefa)
  have hval := hent.filter validPrice
  simp only
  rw [perm_isEmpty_eq hent, perm_isEmpty_eq hval]
  by_cases h1 : (l₂.filter (fun e => !e.is_vefa)).isEmpty
  · rw [if_pos h1, if_pos h1]
  · rw [if_neg h1, if_neg h1]
    by_cases h2 : ((l₂.filter (fun e => !e.is_vefa)).filter validPrice).isEmpty
    · rw [if_pos h2, if_pos h2]
    · rw [if_neg h2, if_neg h2, mkNatureStats_perm hent hval]

theorem geo_departments_lookup (l : List RefinedEntry) (k : PyVal) :
    lookupA (geoStatsOf l).departments k =
      if k ∈ l.map (fun e => e.department_code) then
        some ((l.filter (fun e => e.department_code = k)).length)
      else none := by
  unfold geoStatsOf
  rw [lookupA_map_self]
  simp only [mem_insList]

theorem geo_communes_lookup (l : List RefinedEntry) (c : String) :
    lookupA (geoStatsOf l).communes c =
      if c ∈ l.flatMap (fun e => e.insee_codes) then
        some ((l.flatMap (fun e => e.insee_codes)).count c)
      else none := by
  unfold geoStatsOf
  rw [lookupA_map_self]
  simp only [mem_insList]

theorem geo_communes_sum (l : List RefinedEntry) :
    (((geoStatsOf l).communes.map Prod.snd).sum) = (l.flatMap (fun e => e.insee_codes)).length := by
  unfold geoStatsOf
  simp only [List.map_map]
  have hperm : (insList (l.flatMap (fun e => e.insee_codes))).Perm
      (l.flatMap (fun e => e.insee_codes)).dedup :=
    (List.perm_ext_iff_of_nodup (nodup_insList _) (List.nodup_dedup _)).mpr
      (fun a => by rw [mem_insList, List.mem_dedup])
  rw [(hperm.map _).sum_eq]
  exact List.sum_map_count_dedup_eq_length _

theorem pyRound2_low (x : ℚ) (k : ℤ) (h1 : (k : ℚ) ≤ x * 100) (h2 : x * 100 - k < 1/2) :
    pyRound2 x = (k : ℚ) / 100 := by
  unfold pyRound2
  rw [roundHalfEven_eq_low _ k h1 h2]

theorem pyRound2_high (x : ℚ) (k : ℤ) (h1 : 1/2 < x * 100 - k) (h2 : x * 100 < (k : ℚ) + 1) :
    pyRound2 x = ((k + 1 : ℤ) : ℚ) / 100 := by
  unfold pyRound2
  rw [roundHalfEven_eq_high _ k h1 h2]

theorem pyRound2_third : pyRound2 ((100 : ℚ) / 3) = 3333 / 100 := by
  have h := pyRound2_low ((100 : ℚ) / 3) 3333 (by norm_num) (by norm_num)
  rw [h]
  norm_num

theorem pyRound2_seventh : pyRound2 ((100 : ℚ) / 7) = 1429 / 100 := by
  have h := pyRound2_high ((100 : ℚ) / 7) 1428 (by norm_num) (by norm_num)
  rw [h]
  norm_num

theorem pyRound2_price100 : pyRound2 (2500 : ℚ) = 2500 := by
  rw [pyRound2_of_int _ 250000 (by norm_num)]
  norm_num

theorem refine_rawPrice100 : refine_dvf_data [rawPrice100] = .ok [refPrice100] := by
  have h1 : refineEntry rawPrice100 = .ok (some refPrice100) := by
    simp only [refineEntry, rawPrice100, emptyRaw, refPrice100]
    norm_num [pyInt?, pyFloat?, pyOr, pyTruthy, pyRound2_price100]
  simp only [refine_dvf_data, refineLoop, h1]

theorem refine_rawPriceThird : refine_dvf_data [rawPriceThird] = .ok [refPriceThird] := by
  have h1 : refineEntry rawPriceThird = .ok (some refPriceThird) := by
    simp only [refineEntry, rawPriceThird, emptyRaw, refPriceThird]
    norm_num [pyInt?, pyFloat?, pyOr, pyTruthy, pyRound2_third]
  simp only [refine_dvf_data, refineLoop, h1]

theorem refine_rawPriceSeventh : refine_dvf_data [rawPriceSeventh] = .ok [refPriceSeventh] := by
  have h1 : refineEntry rawPriceSeventh = .ok (some refPriceSeventh) := by
    simp only [refineEntry, rawPriceSeventh, emptyRaw, refPriceSeventh]
    norm_num [pyInt?, pyFloat?, pyOr, pyTruthy, pyRound2_third, pyRound2_seventh]
  simp only [refine_dvf_data, refineLoop, h1]

theorem fetchLoop_transient_step (t : FetchOutcome) (ht : transient t = true)
    (rest : List FetchOutcome) (results : List RawEntry) (retries : Nat) (delays : List Nat) :
    fetchLoop (t :: rest) results retries delays =
      if 0 < retries - 1 then
        fetchLoop rest results (retries - 1) (delays ++ [2 ^ (MAX_RETRIES - (retries - 1))])
      else .apiError delays := by
  cases t with
  | success page next => simp [transient] at ht
  | httpError s =>
    have hs : ¬ s = 403 := by simpa [transient] using ht
    simp only [fetchLoop, if_neg hs]
  | requestError => rfl

theorem groupedStats_lookup_some {V : Type} {key : RefinedEntry → PyVal}
    {mk : List RefinedEntry → List RefinedEntry → V} {l : List RefinedEntry} {k : PyVal} {v : V}
    (h : lookupA (groupedStats key mk l) k = some v) :
    v = mk (l.filter (fun e => key e = k)) ((l.filter (fun e => key e = k)).filter validPrice) := by
  have hmem := (lookupA_eq_some_iff (groupedStats_key_nodup key mk l)).mp h
  unfold groupedStats at hmem
  obtain ⟨j, hj, hjv⟩ := List.mem_filterMap.mp hmem
  simp only at hjv
  by_cases hv : ((l.filter (fun e => key e = j)).filter validPrice).isEmpty
  · rw [if_pos hv] at hjv; cases hjv
  · rw [if_neg hv, Option.some.injEq] at hjv
    rw [Prod.ext_iff] at hjv
    obtain ⟨h1, h2⟩ := hjv
    simp only at h1 h2
    rw [h1] at h2
    exact h2.symm

/-- C1, counterexample: refine_dvf_data can fail as a whole. A batch
holding one refinable record followed by one record whose nbpar field is
null makes int(None) raise outside the try block, so the whole call
fails and even the first, refinable record is lost; a per-record
type-coercion failure therefore does not always just skip that record. -/
theorem refine_batch_abort_counterexample :
    refine_dvf_data [emptyRaw, rawBadCount] = .error "nbpar" := by decide

/-- C1, amended: refinement never fails as a whole provided the five
count fields outside the try block coerce on every record that passes the
guarded coercions; a record failing one of the four guarded coercions
(mutation year, land value, land area, built area) is skipped alone, and
the remaining records are refined and returned in input order. -/
theorem refine_skips_guarded_failures (l : List RawEntry)
    (h : ∀ e ∈ l, guardedOk e = true → countsOk e = true) :
    refine_dvf_data l = .ok (l.filterMap refineOne) ∧
    ∀ e ∈ l, guardedOk e = false → refineOne e = none := by
  constructor
  · exact refineLoop_eq_filterMap l h
  · intro e _ hg
    exact refineOne_eq_of e none (refineEntry_skip e hg)

theorem refineEntry_rawPrice100 : refineEntry rawPrice100 = .ok (some refPrice100) := by
  simp only [refineEntry, rawPrice100, emptyRaw, refPrice100]
  norm_num [pyInt?, pyFloat?, pyOr, pyTruthy, pyRound2_price100]

theorem refine_skips_guarded_failures_witness :
    (∀ e ∈ [rawPrice100, rawBadYear], guardedOk e = true → countsOk e = true) ∧
    refine_dvf_data [rawPrice100, rawBadYear] =
      .ok ([rawPrice100, rawBadYear].filterMap refineOne) ∧
    [rawPrice100, rawBadYear].filterMap refineOne = [refPrice100] := by
  refine ⟨by decide, (refine_skips_guarded_failures _ (by decide)).1, ?_⟩
  rw [List.filterMap_cons, List.filterMap_cons,
    refineOne_eq_of _ _ refineEntry_rawPrice100,
    refineOne_eq_of _ _ (refineEntry_skip rawBadYear (by decide))]
  rfl

/-- C2, counterexample: aggregation of the empty input does not return a
report carrying a total_transactions field equal to 0; it returns the
empty dict, which carries no fields at all (modelled as none). -/
theorem aggregate_empty_counterexample :
    ¬ ∃ s : Stats, calculate_comprehensive_statistics [] = some s ∧
      s.total_transactions = 0 := by
  rintro ⟨s, hs, _⟩
  simp [calculate_comprehensive_statistics] at hs

/-- C2, amended: aggregation of the empty input returns the empty report,
not an error: the function is total and yields the empty dict for the
empty input, where the no-data marker is the emptiness of the report
itself, while every nonempty input yields the populated report. -/
theorem aggregate_empty_returns_empty_report :
    calculate_comprehensive_statistics [] = none ∧
    ∀ (e : RefinedEntry) (rest : List RefinedEntry),
      calculate_comprehensive_statistics (e :: rest) = some (statsOf (e :: rest)) :=
  ⟨rfl, fun _ _ => rfl⟩

/-- C4: on transient failures the fetcher retries the same page with at
most 3 total attempts and exponential delays of 2 then 4 seconds; two
transient failures followed by a success return that page after sleeping
2 then 4 seconds, and a third transient failure makes the whole fetch
fail with a fatal APIError. -/
theorem fetch_transient_retry_backoff (bbox min_year : String) (t₁ t₂ : FetchOutcome)
    (hb : bbox ≠ "") (hy : min_year ≠ "")
    (h₁ : transient t₁ = true) (h₂ : transient t₂ = true)
    (page : List RawEntry) (rest : List FetchOutcome) :
    fetch_all_pages_dvf_api bbox min_year (t₁ :: t₂ :: .success page none :: rest) =
      .ok page [2, 4] ∧
    ∀ t₃, transient t₃ = true →
      fetch_all_pages_dvf_api bbox min_year (t₁ :: t₂ :: t₃ :: rest) = .apiError [2, 4] := by
  have hne : ¬ (bbox = "" ∨ min_year = "") := not_or.mpr ⟨hb, hy⟩
  have hpre : ∀ (rs : List FetchOutcome),
      fetchLoop (t₁ :: t₂ :: rs) [] MAX_RETRIES [] = fetchLoop rs [] 1 [2, 4] := by
    intro rs
    rw [fetchLoop_transient_step t₁ h₁]
    norm_num [MAX_RETRIES]
    rw [fetchLoop_transient_step t₂ h₂]
    norm_num [MAX_RETRIES]
  constructor
  · unfold fetch_all_pages_dvf_api
    rw [if_neg hne, hpre]
    rfl
  · intro t₃ h₃
    unfold fetch_all_pages_dvf_api
    rw [if_neg hne, hpre, fetchLoop_transient_step t₃ h₃]
    norm_num

theorem fetch_transient_retry_backoff_witness :
    transient .requestError = true ∧ transient (.httpError 500) = true ∧
    fetch_all_pages_dvf_api "2.31,48.85,2.32,48.86" "2023"
      [.requestError, .httpError 500, .success [emptyRaw] none] = .ok [emptyRaw] [2, 4] ∧
    fetch_all_pages_dvf_api "2.31,48.85,2.32,48.86" "2023"
      [.requestError, .httpError 500, .requestError] = .apiError [2, 4] := by
  refine ⟨rfl, by decide, ?_, ?_⟩
  · exact (fetch_transient_retry_backoff "2.31,48.85,2.32,48.86" "2023" .requestError
      (.httpError 500) (by decide) (by decide) rfl (by decide) [emptyRaw] []).1
  · exact (fetch_transient_retry_backoff "2.31,48.85,2.32,48.86" "2023" .requestError
      (.httpError 500) (by decide) (by decide) rfl (by decide) [emptyRaw] []).2 .requestError rfl

/-- C5: an HTTP 403 response makes the fetch fail immediately with a
fatal APIError, from any loop state: no retry is attempted, no delay is
added, and no partial result is returned. -/
theorem fetch_http403_fatal :
    (∀ (rest : List FetchOutcome) (results : List RawEntry) (retries : Nat) (delays : List Nat),
      fetchLoop (.httpError 403 :: rest) results retries delays = .apiError delays) ∧
    (∀ (bbox min_year : String) (rest : List FetchOutcome), bbox ≠ "" → min_year ≠ "" →
      fetch_all_pages_dvf_api bbox min_year (.httpError 403 :: rest) = .apiError []) := by
  constructor
  · intro rest results retries delays
    rfl
  · intro bbox min_year rest hb hy
    unfold fetch_all_pages_dvf_api
    rw [if_neg (not_or.mpr ⟨hb, hy⟩)]
    rfl

theorem fetch_http403_fatal_witness :
    fetch_all_pages_dvf_api "2.31,48.85,2.32,48.86" "2022" [.httpError 403] = .apiError [] :=
  fetch_http403_fatal.2 "2.31,48.85,2.32,48.86" "2022" [] (by decide) (by decide)

/-- C6, counterexample: a derived price is not in general the exact
quotient of land value by built area. For built area 3 and land value
100 the refined record carries 33.33, which differs from 100 / 3. -/
theorem price_rounding_counterexample :
    refine_dvf_data [rawPriceThird] = .ok [refPriceThird] ∧
    refPriceThird.price_per_m2 ≠ some (refPriceThird.land_value / refPriceThird.built_area) := by
  refine ⟨refine_rawPriceThird, ?_⟩
  simp only [refPriceThird]
  intro h
  rw [Option.some.injEq] at h
  norm_num at h

/-- C6, amended: for every refined record, price_per_m2 is absent exactly
when not both built area and land value are positive, and when present it
equals the quotient of land value by built area rounded to two decimal
places; in particular built area 100 and land value 250000 give 2500. -/
theorem price_presence_and_value {raws : List RawEntry} {out : List RefinedEntry}
    {r : RefinedEntry} (h : refine_dvf_data raws = .ok out) (hr : r ∈ out) :
    (r.price_per_m2 = none ↔ ¬ (0 < r.built_area ∧ 0 < r.land_value)) ∧
    ∀ p, r.price_per_m2 = some p → p = pyRound2 (r.land_value / r.built_area) := by
  obtain ⟨e, _, he⟩ := mem_refine h hr
  obtain ⟨h1, _⟩ := refineEntry_fields he
  constructor
  · constructor
    · intro hn hc
      rw [h1, if_pos hc] at hn
      cases hn
    · intro hc
      rw [h1, if_neg hc]
  · intro p hp
    rw [h1] at hp
    by_cases hc : 0 < r.built_area ∧ 0 < r.land_value
    · rw [if_pos hc, Option.some.injEq] at hp
      exact hp.symm
    · rw [if_neg hc] at hp
      cases hp

theorem price_presence_and_value_witness :
    refine_dvf_data [rawPrice100] = .ok [refPrice100] ∧
    (refPrice100.price_per_m2 = none ↔ ¬ (0 < refPrice100.built_area ∧ 0 < refPrice100.land_value)) ∧
    (∀ p, refPrice100.price_per_m2 = some p →
      p = pyRound2 (refPrice100.land_value / refPrice100.built_area)) ∧
    refPrice100.price_per_m2 = some 2500 :=
  ⟨refine_rawPrice100,
   (price_presence_and_value refine_rawPrice100 (List.mem_cons_self _ _)).1,
   (price_presence_and_value refine_rawPrice100 (List.mem_cons_self _ _)).2,
   rfl⟩

/-- C9: for every refined record, each derived per-area price, when
present, is the corresponding quotient rounded to two decimal places, and
in particular an integer multiple of one hundredth. -/
theorem derived_prices_rounded {raws : List RawEntry} {out : List RefinedEntry}
    {r : RefinedEntry} (h : refine_dvf_data raws = .ok out) (hr : r ∈ out) :
    (∀ p, r.price_per_m2 = some p →
      p = pyRound2 (r.land_value / r.built_area) ∧ ∃ k : ℤ, p = (k : ℚ) / 100) ∧
    (∀ p, r.price_per_m2_land = some p →
      p = pyRound2 (r.land_value / r.land_area) ∧ ∃ k : ℤ, p = (k : ℚ) / 100) := by
  obtain ⟨e, _, he⟩ := mem_refine h hr
  obtain ⟨h1, h2⟩ := refineEntry_fields he
  constructor
  · intro p hp
    rw [h1] at hp
    by_cases hc : 0 < r.built_area ∧ 0 < r.land_value
    · rw [if_pos hc, Option.some.injEq] at hp
      exact ⟨hp.symm, ⟨roundHalfEven ((r.land_value / r.built_area) * 100), by rw [← hp]; rfl⟩⟩
    · rw [if_neg hc] at hp
      cases hp
  · intro p hp
    rw [h2] at hp
    by_cases hc : 0 < r.land_area ∧ 0 < r.land_value
    · rw [if_pos hc, Option.some.injEq] at hp
      exact ⟨hp.symm, ⟨roundHalfEven ((r.land_value / r.land_area) * 100), by rw [← hp]; rfl⟩⟩
    · rw [if_neg hc] at hp
      cases hp

theorem derived_prices_rounded_witness :
    refine_dvf_data [rawPriceSeventh] = .ok [refPriceSeventh] ∧
    refPriceSeventh.price_per_m2 = some (3333 / 100) ∧
    refPriceSeventh.price_per_m2_land = some (1429 / 100) ∧
    (∀ p, refPriceSeventh.price_per_m2 = some p →
      p = pyRound2 (refPriceSeventh.land_value / refPriceSeventh.built_area) ∧
      ∃ k : ℤ, p = (k : ℚ) / 100) ∧
    (∀ p, refPriceSeventh.price_per_m2_land = some p →
      p = pyRound2 (refPriceSeventh.land_value / refPriceSeventh.land_area) ∧
      ∃ k : ℤ, p = (k : ℚ) / 100) :=
  ⟨refine_rawPriceSeventh, rfl, rfl,
   (derived_prices_rounded refine_rawPriceSeventh (List.mem_cons_self _ _)).1,
   (derived_prices_rounded refine_rawPriceSeventh (List.mem_cons_self _ _)).2⟩

/-- C10: for a nonempty normalized input the report exists, its
total_transactions equals the input length, its valid_price_transactions
counts the records whose price_per_m2 is present and strictly positive,
and the latter never exceeds the former. -/
theorem totals_and_valid_counts (l : List RefinedEntry) (h : l ≠ []) :
    calculate_comprehensive_statistics l = some (statsOf l) ∧
    (statsOf l).total_transactions = l.length ∧
    (statsOf l).valid_price_transactions =
      l.countP (fun e => match e.price_per_m2 with | some p => decide (0 < p) | none => false) ∧
    (statsOf l).valid_price_transactions ≤ (statsOf l).total_transactions := by
  refine ⟨?_, rfl, ?_, ?_⟩
  · cases l with
    | nil => exact absurd rfl h
    | cons e rest => rfl
  · show (validPriceData l).length = _
    rw [List.countP_eq_length_filter]
    rfl
  · show (validPriceData l).length ≤ l.length
    exact List.length_filter_le _ _

theorem totals_and_valid_counts_witness :
    c10Entries ≠ [] ∧
    calculate_comprehensive_statistics c10Entries = some (statsOf c10Entries) ∧
    (statsOf c10Entries).total_transactions = 3 ∧
    (statsOf c10Entries).valid_price_transactions = 1 := by
  have h := totals_and_valid_counts c10Entries (by decide)
  refine ⟨by decide, h.1, ?_, ?_⟩
  · rw [h.2.1]
    decide
  · rw [h.2.2.1]
    decide

/-- C8, counterexample: the sum of all per-commune counts can be smaller
than the total transaction count: a nonempty input whose single record
carries no INSEE code yields commune counts summing to 0 against a total
of 1. -/
theorem commune_fanout_counterexample :
    (((statsOf c8NoInsee).geographic_stats.communes.map Prod.snd).sum = 0) ∧
    (statsOf c8NoInsee).total_transactions = 1 ∧
    ¬ ((statsOf c8NoInsee).total_transactions ≤
        ((statsOf c8NoInsee).geographic_stats.communes.map Prod.snd).sum) := by
  have hg : (statsOf c8NoInsee).geographic_stats = geoStatsOf c8NoInsee := rfl
  have ht : (statsOf c8NoInsee).total_transactions = 1 := rfl
  rw [hg, ht]
  refine ⟨by decide, rfl, by decide⟩

/-- C8, amended: every occurrence of an INSEE code on a record increments
that commune counter by one, so each commune count is the occurrence
count of its code across the input and the counts sum to the total
number of INSEE code occurrences; when every record carries at least one
INSEE code this sum is at least the total transaction count. -/
theorem commune_fanout_counts (l : List RefinedEntry) (h : l ≠ []) :
    (∀ c : String, lookupA (statsOf l).geographic_stats.communes c =
      if c ∈ l.flatMap (fun e => e.insee_codes) then
        some ((l.flatMap (fun e => e.insee_codes)).count c)
      else none) ∧
    ((statsOf l).geographic_stats.communes.map Prod.snd).sum =
      (l.map (fun e => e.insee_codes.length)).sum ∧
    ((∀ e ∈ l, e.insee_codes ≠ []) →
      (statsOf l).total_transactions ≤
        ((statsOf l).geographic_stats.communes.map Prod.snd).sum) := by
  have hg : (statsOf l).geographic_stats = geoStatsOf l := rfl
  refine ⟨?_, ?_, ?_⟩
  · intro c
    rw [hg]
    exact geo_communes_lookup l c
  · rw [hg, geo_communes_sum, List.length_flatMap]
    rfl
  · intro hne
    rw [hg, geo_communes_sum, List.length_flatMap]
    show l.length ≤ _
    have hL := List.length_le_sum_of_one_le
      (l.map (List.length ∘ fun e => e.insee_codes)) ?_
    · rw [List.length_map] at hL
      exact hL
    · intro i hi
      obtain ⟨e, he, rfl⟩ := List.mem_map.mp hi
      have := hne e he
      simp only [Function.comp]
      exact Nat.one_le_iff_ne_zero.mpr (by simpa using this)

theorem commune_fanout_counts_witness :
    c8Two ≠ [] ∧
    lookupA (statsOf c8Two).geographic_stats.communes "75101" = some 1 ∧
    lookupA (statsOf c8Two).geographic_stats.communes "75102" = some 1 ∧
    (∀ e ∈ c8Two, e.insee_codes ≠ []) ∧
    (statsOf c8Two).total_transactions ≤
      ((statsOf c8Two).geographic_stats.communes.map Prod.snd).sum := by
  have h := commune_fanout_counts c8Two (by decide)
  refine ⟨by decide, ?_, ?_, by decide, h.2.2 (by decide)⟩
  · rw [h.1 "75101"]
    decide
  · rw [h.1 "75102"]
    decide

theorem statsOf_financial (l : List RefinedEntry) (h : validPriceData l ≠ []) :
    (statsOf l).financial_stats = some (financialStatsOf (validPriceData l)) := by
  show (if (validPriceData l).isEmpty then none else some (financialStatsOf (validPriceData l)))
    = some (financialStatsOf (validPriceData l))
  rw [if_neg (by simpa [List.isEmpty_iff] using h)]

/-- C3: every median reported by the statistics engine, namely the global
price, land value and built area medians and the per-property-type price
median, is the element at index n / 2 of the ascending-sorted list of the
n contributing values, never the average of the two middle elements. -/
theorem engine_medians_lower_middle (l : List RefinedEntry) (h : validPriceData l ≠ []) :
    ∃ fs, (statsOf l).financial_stats = some fs ∧
      fs.price_per_m2.median =
        (pySorted ((validPriceData l).map (fun e => e.price_per_m2.getD 0))).getD
          (((validPriceData l).map (fun e => e.price_per_m2.getD 0)).length / 2) 0 ∧
      fs.land_value.median =
        (pySorted ((validPriceData l).map (fun e => e.land_value))).getD
          (((validPriceData l).map (fun e => e.land_value)).length / 2) 0 ∧
      fs.built_area.median =
        (pySorted ((validPriceData l).map (fun e => e.built_area))).getD
          (((validPriceData l).map (fun e => e.built_area)).length / 2) 0 ∧
      ∀ (k : PyVal) (ts : TypeStats), lookupA (statsOf l).by_property_type k = some ts →
        ts.price_median =
          (pySorted (((l.filter (fun e => e.property_type_label = k)).filter validPrice).map
            (fun e => e.price_per_m2.getD 0))).getD
            ((((l.filter (fun e => e.property_type_label = k)).filter validPrice).map
              (fun e => e.price_per_m2.getD 0)).length / 2) 0 := by
  refine ⟨financialStatsOf (validPriceData l), statsOf_financial l h, rfl, rfl, rfl, ?_⟩
  intro k ts hts
  have hb : (statsOf l).by_property_type = by_property_type_of l := rfl
  rw [hb] at hts
  rw [groupedStats_lookup_some hts]
  rfl

theorem engine_medians_lower_middle_witness :
    validPriceData c3Entries ≠ [] ∧
    (∃ fs, (statsOf c3Entries).financial_stats = some fs ∧ fs.price_per_m2.median = 300) ∧
    (pySorted ((validPriceData c3Entries).map (fun e => e.price_per_m2.getD 0))).getD
      (((validPriceData c3Entries).map (fun e => e.price_per_m2.getD 0)).length / 2) 0 = 300 ∧
    (300 : ℚ) ≠ (200 + 300) / 2 := by
  have h : validPriceData c3Entries ≠ [] := by decide
  have h300 : (pySorted ((validPriceData c3Entries).map (fun e => e.price_per_m2.getD 0))).getD
      (((validPriceData c3Entries).map (fun e => e.price_per_m2.getD 0)).length / 2) 0 = 300 := by
    decide
  obtain ⟨fs, hfs, hmed, _⟩ := engine_medians_lower_middle c3Entries h
  exact ⟨h, ⟨fs, hfs, hmed.trans h300⟩, h300, by norm_num⟩

/-- C7: aggregation is order independent: for permuted normalized inputs
the two reports agree on every field, with the dict-valued sections
compared as key-to-value mappings, which is how Python compares dicts,
since only their key insertion order can differ. -/
theorem aggregate_perm_invariant {l₁ l₂ : List RefinedEntry} (h : l₁.Perm l₂) :
    (statsOf l₁).total_transactions = (statsOf l₂).total_transactions ∧
    (statsOf l₁).valid_price_transactions = (statsOf l₂).valid_price_transactions ∧
    (statsOf l₁).valid_land_price_transactions = (statsOf l₂).valid_land_price_transactions ∧
    (statsOf l₁).year_range = (statsOf l₂).year_range ∧
    (statsOf l₁).financial_stats = (statsOf l₂).financial_stats ∧
    (∀ k, lookupA (statsOf l₁).by_property_type k = lookupA (statsOf l₂).by_property_type k) ∧
    (∀ k, lookupA (statsOf l₁).by_mutation_nature k = lookupA (statsOf l₂).by_mutation_nature k) ∧
    (statsOf l₁).vefa = (statsOf l₂).vefa ∧
    (statsOf l₁).classic = (statsOf l₂).classic ∧
    (∀ k, lookupA (statsOf l₁).geographic_stats.departments k =
      lookupA (statsOf l₂).geographic_stats.departments k) ∧
    (∀ c, lookupA (statsOf l₁).geographic_stats.communes c =
      lookupA (statsOf l₂).geographic_stats.communes c) ∧
    (statsOf l₁).geographic_stats.nb_unique_departments =
      (statsOf l₂).geographic_stats.nb_unique_departments ∧
    (statsOf l₁).geographic_stats.nb_unique_communes =
      (statsOf l₂).geographic_stats.nb_unique_communes := by
  have hvp : (validPriceData l₁).Perm (validPriceData l₂) := h.filter validPrice
  have hflat : (l₁.flatMap (fun e => e.insee_codes)).Perm (l₂.flatMap (fun e => e.insee_codes)) :=
    List.Perm.flatMap_right _ h
  refine ⟨h.length_eq, hvp.length_eq, (h.filter validLandPrice).length_eq, ?_, ?_, ?_, ?_,
    vefaStatsOf_perm h, classicStatsOf_perm h, ?_, ?_, ?_, ?_⟩
  · show (YearRange.mk (pyMin (l₁.map (fun e => e.mutation_year)))
        (pyMax (l₁.map (fun e => e.mutation_year)))) =
      (YearRange.mk (pyMin (l₂.map (fun e => e.mutation_year)))
        (pyMax (l₂.map (fun e => e.mutation_year))))
    rw [pyMin_perm (h.map (fun e => e.mutation_year)), pyMax_perm (h.map (fun e => e.mutation_year))]
  · show (if (validPriceData l₁).isEmpty then none else some (financialStatsOf (validPriceData l₁)))
      = (if (validPriceData l₂).isEmpty then none else some (financialStatsOf (validPriceData l₂)))
    rw [perm_isEmpty_eq hvp]
    by_cases he : (validPriceData l₂).isEmpty
    · rw [if_pos he, if_pos he]
    · rw [if_neg he, if_neg he, financialStatsOf_perm hvp]
  · intro k
    exact groupedStats_perm _ mkTypeStats (fun ha hb => mkTypeStats_perm ha hb) h k
  · intro k
    exact groupedStats_perm _ mkNatureStats (fun ha hb => mkNatureStats_perm ha hb) h k
  · intro k
    have hg1 : (statsOf l₁).geographic_stats = geoStatsOf l₁ := rfl
    have hg2 : (statsOf l₂).geographic_stats = geoStatsOf l₂ := rfl
    rw [hg1, hg2, geo_departments_lookup, geo_departments_lookup]
    by_cases hm : k ∈ l₂.map (fun e => e.department_code)
    · rw [if_pos ((h.map (fun e => e.department_code)).mem_iff.mpr hm), if_pos hm,
        (h.filter (fun e => e.department_code = k)).length_eq]
    · rw [if_neg (fun hx => hm ((h.map (fun e => e.department_code)).mem_iff.mp hx)), if_neg hm]
  · intro c
    have hg1 : (statsOf l₁).geographic_stats = geoStatsOf l₁ := rfl
    have hg2 : (statsOf l₂).geographic_stats = geoStatsOf l₂ := rfl
    rw [hg1, hg2, geo_communes_lookup, geo_communes_lookup]
    by_cases hm : c ∈ l₂.flatMap (fun e => e.insee_codes)
    · rw [if_pos (hflat.mem_iff.mpr hm), if_pos hm, hflat.count_eq]
    · rw [if_neg (fun hx => hm (hflat.mem_iff.mp hx)), if_neg hm]
  · show (insList (l₁.map (fun e => e.department_code))).length =
      (insList (l₂.map (fun e => e.department_code))).length
    exact (insList_perm (h.map (fun e => e.department_code))).length_eq
  · show (insList (l₁.flatMap (fun e => e.insee_codes))).length =
      (insList (l₂.flatMap (fun e => e.insee_codes))).length
    exact (insList_perm hflat).length_eq

theorem aggregate_perm_invariant_witness :
    ([c7A, c7B]).Perm ([c7B, c7A]) ∧
    (statsOf [c7A, c7B]).financial_stats = (statsOf [c7B, c7A]).financial_stats ∧
    (∀ k, lookupA (statsOf [c7A, c7B]).by_property_type k =
      lookupA (statsOf [c7B, c7A]).by_property_type k) ∧
    (∀ c, lookupA (statsOf [c7A, c7B]).geographic_stats.communes c =
      lookupA (statsOf [c7B, c7A]).geographic_stats.communes c) := by
  have hperm : ([c7A, c7B]).Perm ([c7B, c7A]) := List.Perm.swap c7B c7A []
  have h := aggregate_perm_invariant hperm
  exact ⟨hperm, h.2.2.2.2.1, h.2.2.2.2.2.1, h.2.2.2.2.2.2.2.2.2.2.1⟩
